import Mathlib

/-!
Verification of the twitter-climate-sentiment-pipeline enrichment stages.

Shallow embedding of the per-stage algorithms of the pipeline:
`DedupBolt`, `CleanBolt` (record assembly), `LangDetectBolt`,
`GeoResolveBolt`, `NOAAEnrichBolt` and the sentiment fusion of
`SentimentModel` / `SentimentBolt`.  Python floats are modelled as `ℚ`,
Python `None` as `Option`, dicts either as typed structures (when the
key set is fixed) or as association lists (for the frame properties).
External collaborators (the MD5 digest, the fastText / langdetect /
transformer / VADER models, the geocoder, and the NOAA HTTP client) are
parameters of the embedded functions.
-/

namespace Pipeline

/-! ### Python string primitives

Python `str.strip()` and `str.lower()`, modelled over the character list
so that the kernel can evaluate them on concrete strings. -/

/-- `str.strip()`: remove leading and trailing whitespace. -/
def pyStrip (s : String) : String :=
  ⟨((s.data.dropWhile Char.isWhitespace).reverse.dropWhile Char.isWhitespace).reverse⟩

/-- `str.lower()` (on the ASCII range). -/
def pyLower (s : String) : String :=
  ⟨s.data.map Char.toLower⟩

/-! ### DedupBolt: LRU caches (`src/bolts/DedupBolt.py`)

The two caches are Python `OrderedDict`s used as LRU sets; we model each
as the list of its keys in order from least recently used (front) to
most recently used (back).  `isDuplicate` embeds `_is_duplicate_id` /
`_is_duplicate_hash` (membership test that moves a hit key to the end),
`cacheInsert` embeds the per-cache part of `_add_to_cache` (insert the
key, then drop the oldest key if the size exceeds the capacity). -/

/-- `OrderedDict.move_to_end(key)` on a present key. -/
def touchKey {α : Type} [DecidableEq α] (cache : List α) (k : α) : List α :=
  cache.erase k ++ [k]

def isDuplicate {α : Type} [DecidableEq α] (cache : List α) (k : α) : Bool × List α :=
  if k ∈ cache then (true, touchKey cache k) else (false, cache)

/-- `if len(cache) > self.max_cache_size: cache.popitem(last=False)` -/
def cacheEvict {α : Type} (maxCacheSize : Nat) (c : List α) : List α :=
  if maxCacheSize < c.length then c.drop 1 else c

/-- `self.cache[key] = True` followed by the eviction check.  A dict
assignment on a present key keeps its position, on a fresh key appends
it at the most-recent end. -/
def cacheInsert {α : Type} [DecidableEq α] (maxCacheSize : Nat) (cache : List α) (k : α) :
    List α :=
  cacheEvict maxCacheSize (if k ∈ cache then cache else cache ++ [k])

/-- The fields of a parsed tweet that `DedupBolt.process` reads.
`tweetId` is `none` when the `tweet_id` key is absent or null (Python
`tweet_data.get('tweet_id')` then yields `None`, which is itself used as
a dict key). -/
structure Tweet where
  retweetStatus : Bool
  tweetId : Option String
  text : String
deriving DecidableEq

structure DedupState where
  seenTweetIds : List (Option String)
  seenTextHashes : List String
deriving DecidableEq

inductive DedupOutcome where
  | droppedRetweet
  | droppedDupId
  | droppedDupHash
  | emitted
deriving DecidableEq

/-- `_compute_text_hash`: MD5 of `text.lower().strip()`. The digest
itself is an external primitive, passed in as `md5`. -/
def computeTextHash (md5 : String → String) (text : String) : String :=
  md5 (pyStrip (pyLower text))

/-- `_add_to_cache`: insert the id and the hash into their caches, each
with LRU eviction. -/
def addToCache (maxCacheSize : Nat) (st : DedupState) (tweetId : Option String)
    (textHash : String) : DedupState :=
  { seenTweetIds := cacheInsert maxCacheSize st.seenTweetIds tweetId
    seenTextHashes := cacheInsert maxCacheSize st.seenTextHashes textHash }

/-- `DedupBolt.process` on one tuple: drop retweets, drop duplicate ids
(refreshing recency), drop duplicate text hashes (refreshing recency),
otherwise add to both caches and emit. -/
def processDedup (md5 : String → String) (maxCacheSize : Nat) (st : DedupState) (t : Tweet) :
    DedupOutcome × DedupState :=
  if t.retweetStatus then (.droppedRetweet, st)
  else if (isDuplicate st.seenTweetIds t.tweetId).1 then
    (.droppedDupId, { st with seenTweetIds := (isDuplicate st.seenTweetIds t.tweetId).2 })
  else if (isDuplicate st.seenTextHashes (computeTextHash md5 t.text)).1 then
    (.droppedDupHash,
      { st with
        seenTextHashes := (isDuplicate st.seenTextHashes (computeTextHash md5 t.text)).2 })
  else (.emitted, addToCache maxCacheSize st t.tweetId (computeTextHash md5 t.text))

/-! #### Cache lemmas -/

theorem isDuplicate_snd_length {α : Type} [DecidableEq α] (cache : List α) (k : α) :
    ((isDuplicate cache k).2).length = cache.length := by
  unfold isDuplicate touchKey
  split
  · next h =>
    have hpos : 0 < cache.length := List.length_pos.mpr (List.ne_nil_of_mem h)
    simp [List.length_erase_of_mem h]
    omega
  · rfl

theorem cacheInsert_length_le {α : Type} [DecidableEq α] (cap : Nat) (cache : List α) (k : α)
    (h : cache.length ≤ cap) : (cacheInsert cap cache k).length ≤ cap := by
  unfold cacheInsert cacheEvict
  split_ifs with hmem hlen hlen <;> (simp_all; try omega)

theorem foldl_cacheInsert_fresh {α : Type} [DecidableEq α] (cap : Nat) :
    ∀ (keys : List α) (cache : List α), keys.Nodup →
      (∀ k ∈ keys, k ∉ cache) → cache.length + keys.length ≤ cap →
      List.foldl (cacheInsert cap) cache keys = cache ++ keys := by
  intro keys
  induction keys with
  | nil => intro cache _ _ _; simp
  | cons k ks ih =>
    intro cache hnd hfresh hlen
    have hkc : k ∉ cache := hfresh k (List.mem_cons_self k ks)
    have hstep : cacheInsert cap cache k = cache ++ [k] := by
      unfold cacheInsert cacheEvict
      rw [if_neg hkc, if_neg]
      simp at hlen ⊢
      omega
    rw [List.foldl_cons, hstep, ih (cache ++ [k]) (List.Nodup.of_cons hnd)]
    · simp
    · intro k' hk'
      simp only [List.mem_append, List.mem_singleton]
      rintro (h | h)
      · exact hfresh k' (List.mem_cons_of_mem k hk') h
      · subst h; exact (List.nodup_cons.mp hnd).1 hk'
    · simp at hlen ⊢; omega

theorem foldl_cacheInsert_overflow {α : Type} [DecidableEq α] (cap : Nat) (keys : List α)
    (hnd : keys.Nodup) (hlen : keys.length = cap + 1) :
    List.foldl (cacheInsert cap) [] keys = keys.drop 1 := by
  have hne : keys ≠ [] := by intro h; rw [h] at hlen; simp at hlen
  obtain ⟨il, lst, rfl⟩ : ∃ il lst, keys = il ++ [lst] := by
    rcases keys with _ | ⟨a, as⟩
    · exact absurd rfl hne
    · exact ⟨(a :: as).dropLast, (a :: as).getLast (by simp),
        (List.dropLast_append_getLast (by simp)).symm⟩
  have hil_len : il.length = cap := by simp at hlen; omega
  have hil_nd : il.Nodup := (List.nodup_append.mp hnd).1
  have hlst : lst ∉ il := by
    have hdisj := (List.nodup_append.mp hnd).2.2
    intro hmem
    exact hdisj hmem (List.mem_singleton_self lst)
  rw [List.foldl_append]
  rw [foldl_cacheInsert_fresh cap il [] hil_nd (by simp) (by simp [hil_len])]
  simp only [List.nil_append, List.foldl_cons, List.foldl_nil]
  unfold cacheInsert cacheEvict
  rw [if_neg hlst, if_pos (by simp [hil_len])]

/-- C2: each deduplication cache holds at most the configured capacity of
keys after any admit operation, and from an empty cache admitting
capacity + 1 distinct keys leaves exactly capacity keys: the result is
the insertion sequence minus its first key, so the first-inserted key
is absent and all the others are present. -/
theorem dedup_cache_capacity_and_eviction :
    (∀ (md5 : String → String) (cap : Nat) (st : DedupState) (t : Tweet),
      st.seenTweetIds.length ≤ cap → st.seenTextHashes.length ≤ cap →
      (processDedup md5 cap st t).2.seenTweetIds.length ≤ cap ∧
      (processDedup md5 cap st t).2.seenTextHashes.length ≤ cap) ∧
    (∀ (cap : Nat) (keys : List String), keys.Nodup → keys.length = cap + 1 →
      List.foldl (cacheInsert cap) [] keys = keys.drop 1 ∧
      (List.foldl (cacheInsert cap) [] keys).length = cap ∧
      (∀ k, keys.head? = some k → k ∉ List.foldl (cacheInsert cap) [] keys) ∧
      (∀ k, k ∈ keys.drop 1 → k ∈ List.foldl (cacheInsert cap) [] keys)) := by
  constructor
  · intro md5 cap st t h1 h2
    unfold processDedup
    split_ifs
    · exact ⟨h1, h2⟩
    · constructor
      · simpa [isDuplicate_snd_length] using h1
      · exact h2
    · constructor
      · exact h1
      · simpa [isDuplicate_snd_length] using h2
    · exact ⟨cacheInsert_length_le cap _ _ h1, cacheInsert_length_le cap _ _ h2⟩
  · intro cap keys hnd hlen
    have hfold := foldl_cacheInsert_overflow cap keys hnd hlen
    refine ⟨hfold, ?_, ?_, ?_⟩
    · rw [hfold, List.length_drop, hlen]
      omega
    · intro k hk
      rw [hfold]
      rcases keys with _ | ⟨a, as⟩
      · simp at hk
      · simp at hk
        subst hk
        simpa using (List.nodup_cons.mp hnd).1
    · intro k hk
      rw [hfold]; exact hk

theorem dedup_cache_capacity_and_eviction_witness :
    ((⟨[some "a"], ["h"]⟩ : DedupState).seenTweetIds.length ≤ 1 ∧
     (⟨[some "a"], ["h"]⟩ : DedupState).seenTextHashes.length ≤ 1 ∧
     (["x", "y", "z"] : List String).Nodup ∧ (["x", "y", "z"] : List String).length = 2 + 1) ∧
    ((processDedup id 1 ⟨[some "a"], ["h"]⟩ ⟨false, some "b", "t"⟩).2.seenTweetIds.length ≤ 1 ∧
     (processDedup id 1 ⟨[some "a"], ["h"]⟩ ⟨false, some "b", "t"⟩).2.seenTextHashes.length ≤ 1) ∧
    (List.foldl (cacheInsert 2) [] ["x", "y", "z"] = (["x", "y", "z"] : List String).drop 1) :=
  ⟨⟨by decide, by decide, by decide, by decide⟩,
    (dedup_cache_capacity_and_eviction.1 id 1 ⟨[some "a"], ["h"]⟩ ⟨false, some "b", "t"⟩
      (by decide) (by decide)),
    (dedup_cache_capacity_and_eviction.2 2 ["x", "y", "z"] (by decide) (by decide)).1⟩

/-- A hit key is moved to the most-recent (last) position. -/
theorem touch_getLast {α : Type} [DecidableEq α] (cache : List α) (k : α) :
    (touchKey cache k).getLast? = some k := by
  simp [touchKey, List.getLast?_concat]

/-- After a hit refresh, if the cache has at least two distinct keys then
the key at the eviction end (the front) is some other key. -/
theorem touch_head_ne {α : Type} [DecidableEq α] (cache : List α) (k : α)
    (hnd : cache.Nodup) (hlen : 2 ≤ cache.length) (hmem : k ∈ cache) :
    ∃ k', (touchKey cache k).head? = some k' ∧ k' ≠ k := by
  unfold touchKey
  have hlen_erase : 0 < (cache.erase k).length := by
    rw [List.length_erase_of_mem hmem]
    omega
  rcases h : cache.erase k with _ | ⟨a, as⟩
  · rw [h] at hlen_erase; simp at hlen_erase
  · refine ⟨a, by simp [h], ?_⟩
    have ha : a ∈ cache.erase k := by rw [h]; exact List.mem_cons_self a as
    exact ((List.Nodup.mem_erase_iff hnd).mp ha).1

/-- C3: a duplicate lookup that drops the record refreshes the recency of
the cached key: the key ends up in the most-recent position of its cache,
and (for a cache of at least two distinct keys) a subsequent eviction
would remove some other key.  Stated for both the identity cache and the
fingerprint cache. -/
theorem dedup_hit_refreshes_recency :
    ∀ (md5 : String → String) (cap : Nat) (st : DedupState) (t : Tweet),
      t.retweetStatus = false →
      ((t.tweetId ∈ st.seenTweetIds →
        processDedup md5 cap st t =
          (.droppedDupId,
            { st with seenTweetIds := touchKey st.seenTweetIds t.tweetId }) ∧
        (touchKey st.seenTweetIds t.tweetId).getLast? = some t.tweetId ∧
        (st.seenTweetIds.Nodup → 2 ≤ st.seenTweetIds.length →
          ∃ k', (touchKey st.seenTweetIds t.tweetId).head? = some k' ∧
            k' ≠ t.tweetId)) ∧
       (t.tweetId ∉ st.seenTweetIds → computeTextHash md5 t.text ∈ st.seenTextHashes →
        processDedup md5 cap st t =
          (.droppedDupHash,
            { st with seenTextHashes :=
                touchKey st.seenTextHashes (computeTextHash md5 t.text) }) ∧
        (touchKey st.seenTextHashes (computeTextHash md5 t.text)).getLast? =
          some (computeTextHash md5 t.text) ∧
        (st.seenTextHashes.Nodup → 2 ≤ st.seenTextHashes.length →
          ∃ k', (touchKey st.seenTextHashes (computeTextHash md5 t.text)).head? = some k' ∧
            k' ≠ computeTextHash md5 t.text))) := by
  intro md5 cap st t hrt
  constructor
  · intro hmem
    refine ⟨?_, touch_getLast _ _, fun hnd hlen => touch_head_ne _ _ hnd hlen hmem⟩
    unfold processDedup isDuplicate
    rw [if_neg (by simp [hrt]), if_pos (by rw [if_pos hmem]), if_pos hmem]
  · intro hid hmem
    refine ⟨?_, touch_getLast _ _, fun hnd hlen => touch_head_ne _ _ hnd hlen hmem⟩
    unfold processDedup isDuplicate
    rw [if_neg (by simp [hrt]), if_neg (by rw [if_neg hid]; simp),
      if_pos (by rw [if_pos hmem]), if_pos hmem]

theorem dedup_hit_refreshes_recency_witness :
    ((false : Bool) = false ∧ (some "a") ∈ [some "b", some "a"] ∧
     "hh" ∈ ["hh", "zz"] ∧ (some "c") ∉ ([some "b", some "a"] : List (Option String))) ∧
    processDedup (fun _ => "hh") 10 ⟨[some "b", some "a"], ["hh", "zz"]⟩ ⟨false, some "a", "t"⟩ =
      (.droppedDupId, ⟨[some "b", some "a"], ["hh", "zz"]⟩) ∧
    processDedup (fun _ => "hh") 10 ⟨[some "b", some "a"], ["hh", "zz"]⟩ ⟨false, some "c", "x"⟩ =
      (.droppedDupHash, ⟨[some "b", some "a"], ["zz", "hh"]⟩) := by
  refine ⟨⟨rfl, by decide, by decide, by decide⟩, ?_, ?_⟩
  · have h := (dedup_hit_refreshes_recency (fun _ => "hh") 10
      ⟨[some "b", some "a"], ["hh", "zz"]⟩ ⟨false, some "a", "t"⟩ rfl).1 (by decide)
    rw [h.1]
    decide
  · have h := (dedup_hit_refreshes_recency (fun _ => "hh") 10
      ⟨[some "b", some "a"], ["hh", "zz"]⟩ ⟨false, some "c", "x"⟩ rfl).2 (by decide) (by decide)
    rw [h.1]
    decide

/-- C9: two consecutive non-repost records that both lack a tweet id,
fed to the deduplication stage from an empty cache with positive
capacity: the first is admitted, the second is dropped as a duplicate
id (the `None` placeholder key collides), even when the texts differ. -/
theorem dedup_missing_id_collision :
    ∀ (md5 : String → String) (cap : Nat) (t1 t2 : Tweet),
      0 < cap → t1.retweetStatus = false → t2.retweetStatus = false →
      t1.tweetId = none → t2.tweetId = none →
      (processDedup md5 cap ⟨[], []⟩ t1).1 = .emitted ∧
      (processDedup md5 cap (processDedup md5 cap ⟨[], []⟩ t1).2 t2).1 = .droppedDupId := by
  intro md5 cap t1 t2 hcap h1 h2 hid1 hid2
  have hlt : ¬ cap < 1 := by omega
  have hstep1 : processDedup md5 cap ⟨[], []⟩ t1 =
      (.emitted, ⟨[t1.tweetId], [computeTextHash md5 t1.text]⟩) := by
    unfold processDedup isDuplicate addToCache cacheInsert cacheEvict
    simp [h1, hlt]
  rw [hstep1]
  refine ⟨rfl, ?_⟩
  unfold processDedup isDuplicate
  simp [h2, hid1, hid2]

theorem dedup_missing_id_collision_witness :
    (0 < 10 ∧ (false : Bool) = false ∧ (none : Option String) = none) ∧
    (processDedup id 10 ⟨[], []⟩ ⟨false, none, "first text"⟩).1 = .emitted ∧
    (processDedup id 10 (processDedup id 10 ⟨[], []⟩ ⟨false, none, "first text"⟩).2
      ⟨false, none, "a different text"⟩).1 = .droppedDupId :=
  ⟨⟨by decide, rfl, rfl⟩,
    dedup_missing_id_collision id 10 ⟨false, none, "first text"⟩
      ⟨false, none, "a different text"⟩ (by decide) rfl rfl rfl rfl⟩

/-! ### LangDetectBolt (`src/bolts/LangDetectBolt.py`)

`_detect_language` with the fastText and langdetect classifiers passed in
as oracles: `fasttextDetect` stands for `_detect_with_fasttext` (only
consulted when the model is loaded) and `langdetectDetect` for
`_detect_with_langdetect` (only consulted when the library is
available). -/

structure LangResult where
  detectedLang : String
  langConfidence : ℚ
  langMethod : String
deriving DecidableEq

/-- The fields of a cleaned tweet that `_detect_language` reads:
`text_clean` (default `''`) and Twitter's declared `lang` (default
`'unknown'`). -/
structure LangInput where
  textClean : Option String
  lang : Option String

def detectLanguage (modelLoaded : Bool) (fasttextDetect : String → Option LangResult)
    (langdetectAvailable : Bool) (langdetectDetect : String → Option LangResult)
    (t : LangInput) : Option LangResult :=
  let text := t.textClean.getD ""
  let twitterLang := t.lang.getD "unknown"
  if (pyStrip text).length < 10 then
    some ⟨twitterLang, 1/2, "twitter_short_text"⟩
  else
    match (if modelLoaded then fasttextDetect text else none).filter
        (fun r => decide ((1:ℚ)/2 ≤ r.langConfidence)) with
    | some r => some r
    | none =>
      match (if langdetectAvailable then langdetectDetect text else none) with
      | some r => some r
      | none => some ⟨twitterLang, 3/10, "twitter_fallback"⟩

/-- C4 (counterexample): on a record with short cleaned text the language
stage returns method string `'twitter_short_text'`, not `"short_text"` as
the claim states. -/
theorem langdetect_short_text_method_counterexample :
    detectLanguage true (fun _ => some ⟨"xx", 1, "fasttext"⟩)
        true (fun _ => some ⟨"yy", 1, "langdetect"⟩) ⟨some "short", some "en"⟩ =
      some ⟨"en", 1/2, "twitter_short_text"⟩ ∧
    (detectLanguage true (fun _ => some ⟨"xx", 1, "fasttext"⟩)
        true (fun _ => some ⟨"yy", 1, "langdetect"⟩) ⟨some "short", some "en"⟩).map
      LangResult.langMethod ≠ some "short_text" := by
  constructor
  · rfl
  · intro h
    rw [show detectLanguage true (fun _ => some ⟨"xx", 1, "fasttext"⟩)
        true (fun _ => some ⟨"yy", 1, "langdetect"⟩) ⟨some "short", some "en"⟩ =
      some ⟨"en", 1/2, "twitter_short_text"⟩ from rfl] at h
    simp at h

/-- C4 (amended): for trimmed cleaned text shorter than 10 characters the
stage returns the declared language with confidence 0.5 and method
`'twitter_short_text'` (the spec calls this branch "short_text"), without
invoking either classifier: the result is the same for every choice of
classifiers, and equals the run with no classifier at all. -/
theorem langdetect_short_text_amended :
    ∀ (modelLoaded : Bool) (ft : String → Option LangResult)
      (langdetectAvailable : Bool) (ld : String → Option LangResult) (t : LangInput),
      (pyStrip (t.textClean.getD "")).length < 10 →
      detectLanguage modelLoaded ft langdetectAvailable ld t =
        some ⟨t.lang.getD "unknown", 1/2, "twitter_short_text"⟩ ∧
      detectLanguage modelLoaded ft langdetectAvailable ld t =
        detectLanguage false (fun _ => none) false (fun _ => none) t := by
  intro modelLoaded ft langdetectAvailable ld t h
  constructor
  · unfold detectLanguage
    rw [if_pos h]
  · unfold detectLanguage
    rw [if_pos h, if_pos h]

theorem langdetect_short_text_amended_witness :
    (pyStrip ((some "tiny" : Option String).getD "")).length < 10 ∧
    detectLanguage true (fun _ => some ⟨"xx", 1, "fasttext"⟩)
        true (fun _ => some ⟨"yy", 1, "langdetect"⟩) ⟨some "tiny", some "de"⟩ =
      some ⟨"de", 1/2, "twitter_short_text"⟩ :=
  ⟨by decide,
    (langdetect_short_text_amended true (fun _ => some ⟨"xx", 1, "fasttext"⟩)
      true (fun _ => some ⟨"yy", 1, "langdetect"⟩) ⟨some "tiny", some "de"⟩ (by decide)).1⟩

/-! ### GeoResolveBolt (`src/bolts/GeoResolveBolt.py`)

`_resolve_geolocation` with its three-tier strategy.  The Nominatim
geocoder (with its Redis cache and rate limiting) is the external
collaborator `geocode`.  The `place.geo` JSON subtree is modelled with a
small value type so that `_compute_place_centroid`, including its
silent exception-to-None behaviour, can be embedded faithfully. -/

/-- A JSON value inside `place.geo.coordinates`: a number or an array. -/
inductive JVal where
  | num (q : ℚ)
  | arr (elems : List JVal)

structure PlaceGeo where
  bbox : Option (List ℚ)
  coordinates : Option (List JVal)

/-- A `place` dict; `geo := none` models an absent `geo` key (Python
defaults it to `{}`). -/
structure Place where
  fullName : Option String
  geo : Option PlaceGeo

structure Coordinates where
  lat : Option ℚ
  lon : Option ℚ
deriving DecidableEq

/-- The fields of a tweet that `_resolve_geolocation` reads.  `none`
models an absent key and also a Python-falsy value (empty dict, empty
string) wherever the code tests truthiness. -/
structure GeoInput where
  coordinates : Option Coordinates
  place : Option Place
  userLocation : Option String

structure GeoData where
  geoLat : Option ℚ
  geoLon : Option ℚ
  geoConfidence : String
  geoSource : String
  placeName : Option String
  userLocationString : Option String
deriving DecidableEq

/-- One entry of the list comprehensions over a coordinate ring:
outer `none` is a raised `TypeError` (aborting `_compute_place_centroid`
to `None`), inner `none` is an entry filtered out by the
`len(coord) >= 2` guard, and `some (some (lat, lon))` contributes a
vertex. -/
def centroidPoint (v : JVal) : Option (Option (ℚ × ℚ)) :=
  match v with
  | .num _ => none
  | .arr l =>
    if 2 ≤ l.length then
      match l.get? 0, l.get? 1 with
      | some (.num lon), some (.num lat) => some (some (lat, lon))
      | _, _ => none
    else some none

/-- The `len(coordinates) > 0` branch of `_compute_place_centroid`:
arithmetic mean of the vertex latitudes and longitudes. -/
def centroidOfPoints (pts : List JVal) : Option (ℚ × ℚ) :=
  if 0 < pts.length then
    match pts.mapM centroidPoint with
    | none => none
    | some results =>
      match results.reduceOption with
      | [] => none
      | coords =>
        let lats := coords.map (fun p => p.1)
        let lons := coords.map (fun p => p.2)
        some (lats.sum / lats.length, lons.sum / lons.length)
  else none

/-- `_compute_place_centroid`: bbox midpoints if `geo.bbox` is a
4-element array, else the mean of the (first ring of the) coordinate
array, else `None`. -/
def computePlaceCentroid (place : Place) : Option (ℚ × ℚ) :=
  let geo := place.geo.getD ⟨none, none⟩
  match geo.bbox with
  | some [lonMin, latMin, lonMax, latMax] =>
    some ((latMin + latMax) / 2, (lonMin + lonMax) / 2)
  | _ =>
    match geo.coordinates with
    | some (c0 :: rest) =>
      centroidOfPoints (match c0 with | .arr l => l | .num q => .num q :: rest)
    | _ => none

def geoUnavailable : GeoData :=
  ⟨none, none, "unavailable", "unavailable", none, none⟩

/-- Tier 3 of `_resolve_geolocation`: geocode the user location string. -/
def resolveUserLocationTier (geocode : String → Option (ℚ × ℚ)) (t : GeoInput) : GeoData :=
  match t.userLocation with
  | some loc =>
    if loc ≠ "" ∧ pyStrip loc ≠ "" then
      match geocode (pyStrip loc) with
      | some (lat, lon) => ⟨some lat, some lon, "low", "user_location_geocoded", none, some loc⟩
      | none => geoUnavailable
    else geoUnavailable
  | none => geoUnavailable

/-- Tier 2 of `_resolve_geolocation`: place bounding-box centroid. -/
def resolvePlaceTier (geocode : String → Option (ℚ × ℚ)) (t : GeoInput) : GeoData :=
  match t.place with
  | some p =>
    match computePlaceCentroid p with
    | some (lat, lon) =>
      ⟨some lat, some lon, "medium", "place_centroid", some (p.fullName.getD "unknown"), none⟩
    | none => resolveUserLocationTier geocode t
  | none => resolveUserLocationTier geocode t

/-- `_resolve_geolocation`: direct coordinates, else place centroid, else
geocoded user location, else unavailable. -/
def resolveGeolocation (geocode : String → Option (ℚ × ℚ)) (t : GeoInput) : GeoData :=
  match t.coordinates with
  | some c =>
    match c.lat, c.lon with
    | some lat, some lon => ⟨some lat, some lon, "high", "coordinates", none, none⟩
    | some _, none => resolvePlaceTier geocode t
    | none, _ => resolvePlaceTier geocode t
  | none => resolvePlaceTier geocode t

/-- C5: a record carrying both a non-null coordinate pair and a place
resolves through the coordinates tier: confidence `'high'`, source
`'coordinates'`, and never `'medium'`. -/
theorem geo_coordinates_priority :
    ∀ (geocode : String → Option (ℚ × ℚ)) (t : GeoInput) (c : Coordinates) (lat lon : ℚ),
      t.coordinates = some c → c.lat = some lat → c.lon = some lon →
      t.place.isSome →
      resolveGeolocation geocode t = ⟨some lat, some lon, "high", "coordinates", none, none⟩ ∧
      (resolveGeolocation geocode t).geoConfidence ≠ "medium" := by
  intro geocode t c lat lon hc hlat hlon hp
  obtain ⟨clat, clon⟩ := c
  simp only at hlat hlon
  subst hlat
  subst hlon
  have h : resolveGeolocation geocode t =
      ⟨some lat, some lon, "high", "coordinates", none, none⟩ := by
    unfold resolveGeolocation
    rw [hc]
  refine ⟨h, ?_⟩
  rw [h]
  show ("high" : String) ≠ "medium"
  decide

theorem geo_coordinates_priority_witness :
    ((⟨some ⟨some (744/25), some (-(9537/100))⟩,
        some ⟨some "Miami, FL", some ⟨some [-80, 25, -79, 26], none⟩⟩, none⟩ :
          GeoInput).coordinates = some ⟨some (744/25), some (-(9537/100))⟩ ∧
     (⟨some (744/25), some (-(9537/100))⟩ : Coordinates).lat = some (744/25) ∧
     (⟨some (744/25), some (-(9537/100))⟩ : Coordinates).lon = some (-(9537/100)) ∧
     (⟨some ⟨some (744/25), some (-(9537/100))⟩,
        some ⟨some "Miami, FL", some ⟨some [-80, 25, -79, 26], none⟩⟩, none⟩ :
          GeoInput).place.isSome) ∧
    resolveGeolocation (fun _ => none)
        ⟨some ⟨some (744/25), some (-(9537/100))⟩,
          some ⟨some "Miami, FL", some ⟨some [-80, 25, -79, 26], none⟩⟩, none⟩ =
      ⟨some (744/25), some (-(9537/100)), "high", "coordinates", none, none⟩ :=
  ⟨⟨rfl, rfl, rfl, rfl⟩,
    (geo_coordinates_priority (fun _ => none)
      ⟨some ⟨some (744/25), some (-(9537/100))⟩,
        some ⟨some "Miami, FL", some ⟨some [-80, 25, -79, 26], none⟩⟩, none⟩
      ⟨some (744/25), some (-(9537/100))⟩ (744/25) (-(9537/100)) rfl rfl rfl rfl).1⟩

/-! ### NOAAEnrichBolt (`src/bolts/NOAAEnrichBolt.py`)

`_enrich_with_noaa` with the NOAA client (`find_nearest_station`,
`query_observations`, both network-and-cache backed) passed in as
oracles.  Timestamps are rational epoch seconds; an observation's
`timestamp` field carries both the raw string and its parse result so
that the silent `except: pass` around `fromisoformat` is captured. -/

/-- Python `round(q, ndigits)` (round half to even), idealised over `ℚ`. -/
def pyRoundHalfEven (q : ℚ) : ℤ :=
  if q - ⌊q⌋ < 1/2 then ⌊q⌋
  else if 1/2 < q - ⌊q⌋ then ⌊q⌋ + 1
  else if ⌊q⌋ % 2 = 0 then ⌊q⌋ else ⌊q⌋ + 1

def pyRound (ndigits : Nat) (q : ℚ) : ℚ :=
  (pyRoundHalfEven (q * (10 ^ ndigits : ℚ)) : ℚ) / (10 ^ ndigits : ℚ)

structure Station where
  id : String
  name : String
  distanceKm : ℚ
deriving DecidableEq

/-- An observation timestamp: the raw ISO string and the epoch seconds
it parses to (`none` when `fromisoformat` would raise). -/
structure ObsTime where
  raw : String
  parsed : Option ℚ
deriving DecidableEq

/-- One observation dict; a `none` field models an absent key, and
`timestamp := none` also models an empty (falsy) timestamp string. -/
structure Observation where
  timestamp : Option ObsTime
  temperatureMaxC : Option ℚ
  temperatureMinC : Option ℚ
  precipitationMm : Option ℚ
  windSpeedMs : Option ℚ
deriving DecidableEq

structure WeatherMetrics where
  temperatureMaxC : Option ℚ
  temperatureMinC : Option ℚ
  temperatureAvgC : Option ℚ
  precipitationMm : Option ℚ
  windSpeedMs : Option ℚ
  closestObservationTime : Option String
deriving DecidableEq

def listMax : List ℚ → Option ℚ
  | [] => none
  | x :: xs => some (xs.foldl max x)

def listMin : List ℚ → Option ℚ
  | [] => none
  | x :: xs => some (xs.foldl min x)

/-- The closest-observation scan of `_aggregate_observations`: strict
`<` keeps the earliest observation on ties; unparseable or missing
timestamps are skipped. -/
def closestObservation (observations : List Observation) (tweetTime : ℚ) :
    Option (ℚ × Observation) :=
  observations.foldl (fun acc obs =>
    match obs.timestamp with
    | some ts =>
      match ts.parsed with
      | some t =>
        match acc with
        | some (bestD, _) => if |t - tweetTime| < bestD then some (|t - tweetTime|, obs) else acc
        | none => some (|t - tweetTime|, obs)
      | none => acc
    | none => acc) none

/-- `_aggregate_observations`. -/
def aggregateObservations (observations : List Observation) (tweetTime : ℚ) :
    WeatherMetrics :=
  let tempsMax := observations.filterMap (fun o => o.temperatureMaxC)
  let tempsMin := observations.filterMap (fun o => o.temperatureMinC)
  let precip := observations.filterMap (fun o => o.precipitationMm)
  let windSpeeds := observations.filterMap (fun o => o.windSpeedMs)
  { temperatureMaxC := (listMax tempsMax).map (pyRound 1)
    temperatureMinC := (listMin tempsMin).map (pyRound 1)
    temperatureAvgC :=
      match listMax tempsMax, listMin tempsMin with
      | some mx, some mn => some (pyRound 1 ((mx + mn) / 2))
      | _, _ => none
    precipitationMm := if precip.length = 0 then none else some (pyRound 1 precip.sum)
    windSpeedMs :=
      if windSpeeds.length = 0 then none
      else some (pyRound 1 (windSpeeds.sum / windSpeeds.length))
    closestObservationTime :=
      (closestObservation observations tweetTime).bind
        (fun p => p.2.timestamp.map (fun ts => ts.raw)) }

/-- `_classify_weather_event`: precipitation rules, then wind rules,
then temperature rules, else `'normal'`. -/
def classifyWeatherEvent (metrics : WeatherMetrics) : String :=
  let tempMax := metrics.temperatureMaxC
  let precip := metrics.precipitationMm.getD 0
  let wind := metrics.windSpeedMs.getD 0
  if precip > 25 then "heavy_rain"
  else if precip > 10 then "rain"
  else if precip > 0 then "light_rain"
  else if wind > 20 then "high_wind"
  else if wind > 10 then "windy"
  else
    match tempMax with
    | some tm =>
      if tm > 35 then "extreme_heat"
      else if tm > 30 then "heat"
      else if tm < 0 then "freezing"
      else if tm < 5 then "cold"
      else "normal"
    | none => "normal"

/-- The spec's rule table, in its stated priority order. -/
def weatherEventRules (metrics : WeatherMetrics) : List (Bool × String) :=
  let tempMax := metrics.temperatureMaxC
  let precip := metrics.precipitationMm.getD 0
  let wind := metrics.windSpeedMs.getD 0
  [ (decide (precip > 25), "heavy_rain"),
    (decide (precip > 10), "rain"),
    (decide (precip > 0), "light_rain"),
    (decide (wind > 20), "high_wind"),
    (decide (wind > 10), "windy"),
    ((match tempMax with | some tm => decide (tm > 35) | none => false), "extreme_heat"),
    ((match tempMax with | some tm => decide (tm > 30) | none => false), "heat"),
    ((match tempMax with | some tm => decide (tm < 0) | none => false), "freezing"),
    ((match tempMax with | some tm => decide (tm < 5) | none => false), "cold") ]

/-- First matching rule wins; no rule matches gives `'normal'`. -/
def firstMatch : List (Bool × String) → String
  | [] => "normal"
  | (cond, label) :: rest => if cond then label else firstMatch rest

/-- The minimum absolute time offset in minutes of `_compute_match_quality`
(`none` models the initial `float('inf')` surviving untouched). -/
def minTimeDiffMinutes (observations : List Observation) (tweetTime : ℚ) : Option ℚ :=
  observations.foldl (fun acc obs =>
    match obs.timestamp with
    | some ts =>
      match ts.parsed with
      | some t =>
        match acc with
        | some m => some (min m (|t - tweetTime| / 60))
        | none => some (|t - tweetTime| / 60)
      | none => acc
    | none => acc) none

/-- `_compute_match_quality`. -/
def computeMatchQuality (observations : List Observation) (tweetTime : ℚ)
    (stationDistance : ℚ) : String :=
  if observations.length = 0 then "no_observations"
  else
    let m := minTimeDiffMinutes observations tweetTime
    if decide (stationDistance < 10) &&
        (match m with | some d => decide (d < 30) | none => false) then "high"
    else if decide (stationDistance < 30) &&
        (match m with | some d => decide (d < 60) | none => false) then "medium"
    else "low"

/-- The `created_at` field as `_enrich_with_noaa` sees it: a datetime,
an ISO string that parses, an ISO string that raises, or anything else
(including an absent key). -/
inductive CreatedAt where
  | dt (t : ℚ)
  | isoStr (t : ℚ)
  | badStr
  | other
deriving DecidableEq

structure NoaaInput where
  geoConfidence : Option String
  geoLat : Option ℚ
  geoLon : Option ℚ
  createdAt : CreatedAt
deriving DecidableEq

/-- The weather fields appended to the tweet record. -/
structure NoaaOutput where
  weatherStationId : Option String
  weatherStationName : Option String
  weatherStationDistanceKm : Option ℚ
  weatherTempC : Option ℚ
  weatherTempMaxC : Option ℚ
  weatherTempMinC : Option ℚ
  weatherPrecipMm : Option ℚ
  weatherWindSpeedMs : Option ℚ
  weatherEventType : Option String
  weatherObservationTime : Option String
  noaaMatchQuality : String
deriving DecidableEq

/-- `_add_null_weather_fields`: all weather fields null and match quality
`'no_geolocation'` (this helper is also reused for the no-station case). -/
def addNullWeatherFields : NoaaOutput :=
  ⟨none, none, none, none, none, none, none, none, none, none, "no_geolocation"⟩

/-- The no-observations record of `_enrich_with_noaa`. -/
def stationNoObservations (station : Station) : NoaaOutput :=
  ⟨some station.id, some station.name, some station.distanceKm,
    none, none, none, none, none, none, none, "no_observations"⟩

/-- The time-window query and aggregation half of `_enrich_with_noaa`. -/
def enrichWithStation (queryObservations : String → ℚ → ℚ → Option (List Observation))
    (t : NoaaInput) (station : Station) (createdAt : ℚ) :
    Option (NoaaInput × NoaaOutput) :=
  match queryObservations station.id (createdAt - 3600) (createdAt + 3600) with
  | none => some (t, stationNoObservations station)
  | some [] => some (t, stationNoObservations station)
  | some (o :: os) =>
    let observations := o :: os
    let metrics := aggregateObservations observations createdAt
    let eventType := classifyWeatherEvent metrics
    let quality := computeMatchQuality observations createdAt station.distanceKm
    some (t,
      { weatherStationId := some station.id
        weatherStationName := some station.name
        weatherStationDistanceKm := some station.distanceKm
        weatherTempC := metrics.temperatureAvgC
        weatherTempMaxC := metrics.temperatureMaxC
        weatherTempMinC := metrics.temperatureMinC
        weatherPrecipMm := metrics.precipitationMm
        weatherWindSpeedMs := metrics.windSpeedMs
        weatherEventType := some eventType
        weatherObservationTime := metrics.closestObservationTime
        noaaMatchQuality := quality })

/-- `_enrich_with_noaa`: `none` models the `except`-to-`None` path (the
record is then failed by `process`); `some (t, w)` is the input record
together with the appended weather fields. -/
def enrichWithNoaa (findNearestStation : ℚ → ℚ → Option Station)
    (queryObservations : String → ℚ → ℚ → Option (List Observation))
    (t : NoaaInput) : Option (NoaaInput × NoaaOutput) :=
  if t.geoConfidence.getD "unavailable" = "unavailable" then some (t, addNullWeatherFields)
  else
    match t.geoLat, t.geoLon with
    | some lat, some lon =>
      match findNearestStation lat lon with
      | none => some (t, addNullWeatherFields)
      | some station =>
        match t.createdAt with
        | .dt time => enrichWithStation queryObservations t station time
        | .isoStr time => enrichWithStation queryObservations t station time
        | .badStr => none
        | .other => some (t, addNullWeatherFields)
    | some _, none => some (t, addNullWeatherFields)
    | none, _ => some (t, addNullWeatherFields)

/-- C1 (counterexample): a record with resolved geolocation for which the
station lookup finds nothing gets match quality `'no_geolocation'`,
not `'no_station'` as the claim states. -/
theorem noaa_no_station_counterexample :
    (enrichWithNoaa (fun _ _ => none) (fun _ _ _ => none)
        ⟨some "high", some 1, some 2, .dt 0⟩).map (fun p => p.2.noaaMatchQuality) =
      some "no_geolocation" ∧
    ("no_geolocation" : String) ≠ "no_station" := by
  constructor
  · rfl
  · decide

/-- C1 (amended): for a record with resolved geolocation and no station
within the radius, the stage returns the record with every weather field
null — but the match quality is the reused `'no_geolocation'` label, not
a distinct `'no_station'` one. -/
theorem noaa_no_station_amended :
    ∀ (findNearestStation : ℚ → ℚ → Option Station)
      (queryObservations : String → ℚ → ℚ → Option (List Observation))
      (t : NoaaInput) (lat lon : ℚ),
      t.geoConfidence.getD "unavailable" ≠ "unavailable" →
      t.geoLat = some lat → t.geoLon = some lon →
      findNearestStation lat lon = none →
      enrichWithNoaa findNearestStation queryObservations t = some (t, addNullWeatherFields) ∧
      addNullWeatherFields.noaaMatchQuality = "no_geolocation" ∧
      addNullWeatherFields.weatherStationId = none ∧
      addNullWeatherFields.weatherStationName = none ∧
      addNullWeatherFields.weatherStationDistanceKm = none ∧
      addNullWeatherFields.weatherTempC = none ∧
      addNullWeatherFields.weatherTempMaxC = none ∧
      addNullWeatherFields.weatherTempMinC = none ∧
      addNullWeatherFields.weatherPrecipMm = none ∧
      addNullWeatherFields.weatherWindSpeedMs = none ∧
      addNullWeatherFields.weatherEventType = none ∧
      addNullWeatherFields.weatherObservationTime = none := by
  intro findNearestStation queryObservations t lat lon hconf hlat hlon hstation
  refine ⟨?_, rfl, rfl, rfl, rfl, rfl, rfl, rfl, rfl, rfl, rfl, rfl⟩
  unfold enrichWithNoaa
  rw [if_neg hconf, hlat, hlon]
  simp only [hstation]

theorem noaa_no_station_amended_witness :
    ((⟨some "high", some 1, some 2, .dt 0⟩ : NoaaInput).geoConfidence.getD "unavailable" ≠
        "unavailable" ∧
     (⟨some "high", some 1, some 2, .dt 0⟩ : NoaaInput).geoLat = some 1 ∧
     (⟨some "high", some 1, some 2, .dt 0⟩ : NoaaInput).geoLon = some 2) ∧
    enrichWithNoaa (fun _ _ => none) (fun _ _ _ => none)
        ⟨some "high", some 1, some 2, .dt 0⟩ =
      some (⟨some "high", some 1, some 2, .dt 0⟩, addNullWeatherFields) :=
  ⟨⟨by decide, rfl, rfl⟩,
    (noaa_no_station_amended (fun _ _ => none) (fun _ _ _ => none)
      ⟨some "high", some 1, some 2, .dt 0⟩ 1 2 (by decide) rfl rfl rfl).1⟩

/-- C6: precipitation of 30 mm classifies as `'heavy_rain'` whatever the
wind and temperature metrics are, and in general `_classify_weather_event`
returns exactly the first matching rule of the fixed priority table
(precipitation, then wind, then temperature, else `'normal'`). -/
theorem classify_weather_event_priority :
    (∀ metrics : WeatherMetrics, metrics.precipitationMm = some 30 →
      classifyWeatherEvent metrics = "heavy_rain") ∧
    (∀ metrics : WeatherMetrics,
      classifyWeatherEvent metrics = firstMatch (weatherEventRules metrics)) := by
  constructor
  · intro metrics h
    unfold classifyWeatherEvent
    rw [h]
    norm_num
  · intro metrics
    unfold classifyWeatherEvent weatherEventRules
    rcases hT : metrics.temperatureMaxC with _ | tm <;>
      simp only [hT, firstMatch, decide_eq_true_eq] <;>
      split_ifs <;>
      first
      | rfl
      | simp_all

theorem classify_weather_event_priority_witness :
    (⟨some 40, some (-5), none, some 30, some 25, none⟩ :
        WeatherMetrics).precipitationMm = some 30 ∧
    classifyWeatherEvent ⟨some 40, some (-5), none, some 30, some 25, none⟩ = "heavy_rain" :=
  ⟨rfl, classify_weather_event_priority.1 ⟨some 40, some (-5), none, some 30, some 25, none⟩ rfl⟩

/-! ### SentimentModel / SentimentBolt
(`src/models/sentiment_model.py`, `src/bolts/SentimentBolt.py`)

`compute_sentiment` with the three scoring backends (English RoBERTa,
multilingual XLM-RoBERTa, VADER) passed in as optional oracles; an
oracle returns the raw signed score together with the method name and
confidence, mirroring `_compute_with_transformer` / `_compute_with_vader`.
The transformer paths truncate the input to 512 characters first. -/

structure RawSentiment where
  sentimentScore : ℚ
  sentimentMethod : String
  sentimentConfidence : ℚ
deriving DecidableEq

structure SentimentOutput where
  sentimentScore : ℚ
  sentimentLabel : String
  sentimentMethod : String
  sentimentConfidence : ℚ
deriving DecidableEq

/-- The model routing of `compute_sentiment`: English model for `'en'`
when loaded, else the multilingual model, else VADER, else nothing. -/
def routeModel (modelEn modelMultilingual vader : Option (String → RawSentiment))
    (text language : String) : Option RawSentiment :=
  match (if language = "en" then modelEn else none) with
  | some f => some (f (text.take 512))
  | none =>
    match modelMultilingual with
    | some f => some (f (text.take 512))
    | none =>
      match vader with
      | some f => some (f text)
      | none => none

/-- `SentimentModel.compute_sentiment`: route, apply the clamped emoji
adjustment, clamp to [-1, 1], label, and round the score to 3 decimals. -/
def computeSentiment (modelEn modelMultilingual vader : Option (String → RawSentiment))
    (text language : String) (emojiSentimentScore : ℚ) : SentimentOutput :=
  match routeModel modelEn modelMultilingual vader text language with
  | none => ⟨0, "neutral", "unavailable", 0⟩
  | some result =>
    let emojiAdjustment := max (-(1/5)) (min (1/5) (emojiSentimentScore * (1/5)))
    let adjustedScore := max (-1 : ℚ) (min 1 (result.sentimentScore + emojiAdjustment))
    let label :=
      if adjustedScore > 3/10 then "positive"
      else if adjustedScore < -(3/10) then "negative"
      else "neutral"
    ⟨pyRound 3 adjustedScore, label, result.sentimentMethod, result.sentimentConfidence⟩

/-- C7 (counterexample): the returned score is rounded to 3 decimals, so
for a raw model score of 1/3 and emoji score 0 the fused score is
0.333, not the claim's `clamp(model_score + clamp(0 * 0.2, -0.2, 0.2), -1, 1)
= 1/3`; in particular an emoji score of 0 does change the raw score here. -/
theorem sentiment_fusion_counterexample :
    (computeSentiment (some (fun _ => ⟨1/3, "roberta_en", 1⟩)) none none
        "hello world" "en" 0).sentimentScore = 333/1000 ∧
    max (-1 : ℚ) (min 1 ((1/3 : ℚ) + max (-(1/5)) (min (1/5) ((0 : ℚ) * (1/5))))) = 1/3 ∧
    (333/1000 : ℚ) ≠ 1/3 := by
  refine ⟨?_, by norm_num, by norm_num⟩
  show pyRound 3 (max (-1 : ℚ) (min 1 ((1/3 : ℚ) + max (-(1/5)) (min (1/5) ((0:ℚ) * (1/5)))))) =
    333/1000
  norm_num [pyRound, pyRoundHalfEven]

/-- C7 (amended): whenever a routed model produces a raw score, the fused
score equals `round(clamp(model_score + clamp(emoji * 0.2, -0.2, 0.2), -1, 1), 3)`;
an emoji score of 0 leaves the (clamped) model score subject only to the
3-decimal rounding, an emoji score of 5 is clamped to an adjustment of
exactly +0.2, and the adjustment magnitude never exceeds 0.2. -/
theorem sentiment_fusion_amended :
    ∀ (modelEn modelMultilingual vader : Option (String → RawSentiment))
      (text language : String) (emoji : ℚ) (result : RawSentiment),
      routeModel modelEn modelMultilingual vader text language = some result →
      ((computeSentiment modelEn modelMultilingual vader text language emoji).sentimentScore =
        pyRound 3 (max (-1 : ℚ)
          (min 1 (result.sentimentScore + max (-(1/5)) (min (1/5) (emoji * (1/5)))))) ∧
      (emoji = 0 →
        (computeSentiment modelEn modelMultilingual vader text language emoji).sentimentScore =
          pyRound 3 (max (-1 : ℚ) (min 1 result.sentimentScore))) ∧
      (emoji = 5 →
        (computeSentiment modelEn modelMultilingual vader text language emoji).sentimentScore =
          pyRound 3 (max (-1 : ℚ) (min 1 (result.sentimentScore + 1/5)))) ∧
      (∀ e : ℚ, |max (-(1/5)) (min (1/5) (e * (1/5)))| ≤ 1/5)) := by
  intro modelEn modelMultilingual vader text language emoji result hroute
  have hmain : (computeSentiment modelEn modelMultilingual vader text language
      emoji).sentimentScore =
      pyRound 3 (max (-1 : ℚ)
        (min 1 (result.sentimentScore + max (-(1/5)) (min (1/5) (emoji * (1/5)))))) := by
    unfold computeSentiment
    rw [hroute]
  refine ⟨hmain, ?_, ?_, ?_⟩
  · intro h0
    rw [hmain, h0]
    norm_num
  · intro h5
    rw [hmain, h5]
    norm_num
  · intro e
    rw [abs_le]
    constructor
    · exact le_max_left _ _
    · exact max_le (by norm_num) (min_le_left _ _)

theorem sentiment_fusion_amended_witness :
    routeModel (some (fun _ => ⟨7/10, "roberta_en", 9/10⟩)) none none "good day" "en" =
      some ⟨7/10, "roberta_en", 9/10⟩ ∧
    (computeSentiment (some (fun _ => ⟨7/10, "roberta_en", 9/10⟩)) none none
        "good day" "en" 0).sentimentScore =
      pyRound 3 (max (-1 : ℚ) (min 1 (7/10 : ℚ))) :=
  ⟨rfl,
    ((sentiment_fusion_amended (some (fun _ => ⟨7/10, "roberta_en", 9/10⟩)) none none
      "good day" "en" 0 ⟨7/10, "roberta_en", 9/10⟩ rfl).2.1 rfl)⟩

/-! ### SentimentBolt empty-text guard -/

/-- The fields of an enriched tweet that `SentimentBolt._compute_sentiment`
reads. -/
structure SentimentInput where
  textClean : Option String
  detectedLang : Option String
  emojiSentimentScore : Option ℚ

/-- `SentimentBolt._compute_sentiment`: the empty/whitespace-text guard
returns a fixed neutral result before any model is consulted; otherwise
it defers to `SentimentModel.compute_sentiment`. -/
def computeSentimentBolt (modelEn modelMultilingual vader : Option (String → RawSentiment))
    (t : SentimentInput) : Option SentimentOutput :=
  let text := t.textClean.getD ""
  let language := t.detectedLang.getD "en"
  let emoji := t.emojiSentimentScore.getD 0
  if text = "" ∨ pyStrip text = "" then
    some ⟨0, "neutral", "empty_text", 0⟩
  else
    some (computeSentiment modelEn modelMultilingual vader text language emoji)

/-- The enriched record emitted by `SentimentBolt.process`. -/
structure SentimentEnriched where
  tweet : SentimentInput
  sentiment : SentimentOutput
  processingStage : String

/-- `SentimentBolt.process`: fail (drop) when `_compute_sentiment`
returns nothing, otherwise append the sentiment fields and the
processing-stage marker and emit. -/
def processSentimentBolt (modelEn modelMultilingual vader : Option (String → RawSentiment))
    (t : SentimentInput) : Option SentimentEnriched :=
  match computeSentimentBolt modelEn modelMultilingual vader t with
  | none => none
  | some s => some ⟨t, s, "sentiment_computed"⟩

/-- C10: for a record whose cleaned text is empty or whitespace-only the
sentiment stage returns score 0, label `'neutral'`, method `'empty_text'`,
confidence 0, independently of every scoring model, and the record is
still emitted (with the stage marker) rather than dropped. -/
theorem sentiment_empty_text_neutral :
    ∀ (modelEn modelMultilingual vader : Option (String → RawSentiment))
      (t : SentimentInput),
      pyStrip (t.textClean.getD "") = "" →
      computeSentimentBolt modelEn modelMultilingual vader t =
        some ⟨0, "neutral", "empty_text", 0⟩ ∧
      computeSentimentBolt modelEn modelMultilingual vader t =
        computeSentimentBolt none none none t ∧
      processSentimentBolt modelEn modelMultilingual vader t =
        some ⟨t, ⟨0, "neutral", "empty_text", 0⟩, "sentiment_computed"⟩ := by
  intro modelEn modelMultilingual vader t h
  have hcond : (t.textClean.getD "") = "" ∨ pyStrip (t.textClean.getD "") = "" := Or.inr h
  have h1 : computeSentimentBolt modelEn modelMultilingual vader t =
      some ⟨0, "neutral", "empty_text", 0⟩ := by
    unfold computeSentimentBolt
    rw [if_pos hcond]
  have h2 : computeSentimentBolt none none none t =
      some ⟨0, "neutral", "empty_text", 0⟩ := by
    unfold computeSentimentBolt
    rw [if_pos hcond]
  refine ⟨h1, h1.trans h2.symm, ?_⟩
  unfold processSentimentBolt
  rw [h1]

theorem sentiment_empty_text_neutral_witness :
    pyStrip (((some "   " : Option String)).getD "") = "" ∧
    processSentimentBolt (some (fun _ => ⟨1, "roberta_en", 1⟩)) none none
        ⟨some "   ", some "en", some 2⟩ =
      some ⟨⟨some "   ", some "en", some 2⟩, ⟨0, "neutral", "empty_text", 0⟩,
        "sentiment_computed"⟩ :=
  ⟨by decide,
    (sentiment_empty_text_neutral (some (fun _ => ⟨1, "roberta_en", 1⟩)) none none
      ⟨some "   ", some "en", some 2⟩ (by decide)).2.2⟩

/-! ### Record assembly: the frame property of the enrichment stages

Each enrichment stage builds its output as
`enriched = tweet_data.copy(); enriched.update({...});
enriched['processing_stage'] = ...` (CleanBolt additionally sets
`text_clean` / `text_original` by direct assignment).  We model the
record as an association list over an arbitrary value type (Python dict
assignment keeps the position of a present key and appends a fresh key)
and each stage's assembly with its literal key set; the computed values
are parameters, since the frame property is about keys. -/

def dictInsert {V : Type} (d : List (String × V)) (k : String) (v : V) :
    List (String × V) :=
  if d.any (fun p => p.1 == k) then
    d.map (fun p => if p.1 == k then (k, v) else p)
  else d ++ [(k, v)]

/-- Python `dict.update`. -/
def dictUpdate {V : Type} (d : List (String × V)) (kvs : List (String × V)) :
    List (String × V) :=
  kvs.foldl (fun acc p => dictInsert acc p.1 p.2) d

def dictKeys {V : Type} (d : List (String × V)) : List String :=
  d.map (fun p => p.1)

/-- `CleanBolt._clean_tweet`: copy, set `text_clean` and `text_original`,
update with the feature dict of `_extract_features`, set the stage
marker. -/
def cleanTweetAssembly {V : Type} (tweetData : List (String × V))
    (textClean textOriginal hashtagCount mentionCount urlCount emojiCount
      emojiScore textLength wordCount hasMedia avgWordLength stageMark : V) :
    List (String × V) :=
  dictInsert
    (dictUpdate
      (dictInsert (dictInsert tweetData "text_clean" textClean) "text_original" textOriginal)
      [("hashtag_count", hashtagCount), ("mention_count", mentionCount),
        ("url_count", urlCount), ("emoji_count", emojiCount),
        ("emoji_sentiment_score", emojiScore), ("text_length", textLength),
        ("word_count", wordCount), ("has_media", hasMedia),
        ("avg_word_length", avgWordLength)])
    "processing_stage" stageMark

/-- `LangDetectBolt.process`: copy, update with the language dict, set
the stage marker. -/
def langDetectAssembly {V : Type} (tweetData : List (String × V))
    (langData : List (String × V)) (stageMark : V) : List (String × V) :=
  dictInsert (dictUpdate tweetData langData) "processing_stage" stageMark

/-- `GeoResolveBolt.process`: copy, update with the geo dict, set the
stage marker. -/
def geoResolveAssembly {V : Type} (tweetData : List (String × V))
    (geoData : List (String × V)) (stageMark : V) : List (String × V) :=
  dictInsert (dictUpdate tweetData geoData) "processing_stage" stageMark

/-- `NOAAEnrichBolt._enrich_with_noaa` and `process`: copy, update with
the eleven weather fields, set the stage marker. -/
def noaaEnrichAssembly {V : Type} (tweetData : List (String × V))
    (stationId stationName stationDistance tempC tempMaxC tempMinC precipMm
      windMs eventType obsTime matchQuality stageMark : V) : List (String × V) :=
  dictInsert
    (dictUpdate tweetData
      [("weather_station_id", stationId), ("weather_station_name", stationName),
        ("weather_station_distance_km", stationDistance), ("weather_temp_c", tempC),
        ("weather_temp_max_c", tempMaxC), ("weather_temp_min_c", tempMinC),
        ("weather_precip_mm", precipMm), ("weather_wind_speed_ms", windMs),
        ("weather_event_type", eventType), ("weather_observation_time", obsTime),
        ("noaa_match_quality", matchQuality)])
    "processing_stage" stageMark

/-- `SentimentBolt.process`: copy, update with the four sentiment fields,
set the stage marker. -/
def sentimentAssembly {V : Type} (tweetData : List (String × V))
    (score label method confidence stageMark : V) : List (String × V) :=
  dictInsert
    (dictUpdate tweetData
      [("sentiment_score", score), ("sentiment_label", label),
        ("sentiment_method", method), ("sentiment_confidence", confidence)])
    "processing_stage" stageMark

theorem mem_dictKeys_dictInsert {V : Type} (d : List (String × V)) (k k' : String) (v : V)
    (h : k' ∈ dictKeys d) : k' ∈ dictKeys (dictInsert d k v) := by
  unfold dictKeys at h ⊢
  unfold dictInsert
  split
  · next hany =>
    simp only [List.map_map, List.mem_map] at h ⊢
    obtain ⟨p, hp, hpk⟩ := h
    refine ⟨p, hp, ?_⟩
    by_cases hpk2 : p.1 == k
    · simpa [Function.comp, hpk2] using ((eq_of_beq hpk2).symm.trans hpk)
    · simpa [Function.comp, hpk2] using hpk
  · simp only [List.map_append, List.mem_append]
    exact Or.inl h

theorem mem_dictKeys_dictUpdate {V : Type} (kvs : List (String × V)) :
    ∀ (d : List (String × V)) (k' : String), k' ∈ dictKeys d →
      k' ∈ dictKeys (dictUpdate d kvs) := by
  induction kvs with
  | nil => intro d k' h; exact h
  | cons p ps ih =>
    intro d k' h
    exact ih (dictInsert d p.1 p.2) k' (mem_dictKeys_dictInsert d p.1 k' p.2 h)

/-- C8: the enrichment stages only add fields: every key of a stage's
input record is still a key of its output record, for the CleanBolt,
LangDetectBolt, GeoResolveBolt, NOAAEnrichBolt and SentimentBolt
assemblies (DedupBolt emits its input record unchanged). -/
theorem stages_preserve_input_fields :
    ∀ (V : Type) (tweetData : List (String × V)) (k : String),
      k ∈ dictKeys tweetData →
      (∀ v1 v2 v3 v4 v5 v6 v7 v8 v9 v10 v11 v12 : V,
        k ∈ dictKeys (cleanTweetAssembly tweetData v1 v2 v3 v4 v5 v6 v7 v8 v9 v10 v11 v12)) ∧
      (∀ (langData : List (String × V)) (sv : V),
        k ∈ dictKeys (langDetectAssembly tweetData langData sv)) ∧
      (∀ (geoData : List (String × V)) (sv : V),
        k ∈ dictKeys (geoResolveAssembly tweetData geoData sv)) ∧
      (∀ w1 w2 w3 w4 w5 w6 w7 w8 w9 w10 w11 w12 : V,
        k ∈ dictKeys (noaaEnrichAssembly tweetData w1 w2 w3 w4 w5 w6 w7 w8 w9 w10 w11 w12)) ∧
      (∀ s1 s2 s3 s4 s5 : V,
        k ∈ dictKeys (sentimentAssembly tweetData s1 s2 s3 s4 s5)) := by
  intro V tweetData k h
  refine ⟨?_, ?_, ?_, ?_, ?_⟩
  · intro v1 v2 v3 v4 v5 v6 v7 v8 v9 v10 v11 v12
    unfold cleanTweetAssembly
    exact mem_dictKeys_dictInsert _ _ _ _
      (mem_dictKeys_dictUpdate _ _ _
        (mem_dictKeys_dictInsert _ _ _ _ (mem_dictKeys_dictInsert _ _ _ _ h)))
  · intro langData sv
    unfold langDetectAssembly
    exact mem_dictKeys_dictInsert _ _ _ _ (mem_dictKeys_dictUpdate _ _ _ h)
  · intro geoData sv
    unfold geoResolveAssembly
    exact mem_dictKeys_dictInsert _ _ _ _ (mem_dictKeys_dictUpdate _ _ _ h)
  · intro w1 w2 w3 w4 w5 w6 w7 w8 w9 w10 w11 w12
    unfold noaaEnrichAssembly
    exact mem_dictKeys_dictInsert _ _ _ _ (mem_dictKeys_dictUpdate _ _ _ h)
  · intro s1 s2 s3 s4 s5
    unfold sentimentAssembly
    exact mem_dictKeys_dictInsert _ _ _ _ (mem_dictKeys_dictUpdate _ _ _ h)

theorem stages_preserve_input_fields_witness :
    "tweet_id" ∈ dictKeys [("tweet_id", 7), ("text_clean", 1)] ∧
    "tweet_id" ∈ dictKeys
      (cleanTweetAssembly [("tweet_id", 7), ("text_clean", 1)] 0 1 2 3 4 5 6 7 8 9 10 11) ∧
    "tweet_id" ∈ dictKeys
      (sentimentAssembly [("tweet_id", 7), ("text_clean", 1)] 0 1 2 3 4) :=
  ⟨by decide,
    (stages_preserve_input_fields Nat [("tweet_id", 7), ("text_clean", 1)] "tweet_id"
      (by decide)).1 0 1 2 3 4 5 6 7 8 9 10 11,
    (stages_preserve_input_fields Nat [("tweet_id", 7), ("text_clean", 1)] "tweet_id"
      (by decide)).2.2.2.2 0 1 2 3 4⟩

end Pipeline
